import Mathlib

/-!
Shallow embedding of `databuilder/models/watermark.py` (Amundsen databuilder
watermark model).  Python strings are Lean `String`s; the character-level
operations of `Watermark.__init__` (`in`, `str.find`, slicing) are embedded as
recursive functions over `String.data`.  Python generators are embedded as
pre-materialized ordered sequences together with an explicit cursor
(`Producer`), exposing the same pull-or-none protocol as the `create_next_*`
accessors; a raised exception at construction is `Except.error`.
-/

namespace AmundsenWatermark

/-- Embedding of the Python expression `c in s` restricted to one character:
true when the character occurs in the list. -/
def contains_char (c : Char) : List Char → Bool
  | [] => false
  | x :: xs => if x = c then true else contains_char c xs

/-- Embedding of `s.find(c)`: index of the first occurrence of `c`.  Python
returns -1 when the character is absent; the source only evaluates `find`
after checking containment, and on absent input this embedding returns the
length of the list instead (never exercised by the model). -/
def find_char (c : Char) : List Char → Nat
  | [] => 0
  | x :: xs => if x = c then 0 else find_char c xs + 1

/-- Lookup of a format-environment variable by name, returning its characters.
Python `str.format` raises `KeyError` on a missing name; the source only
formats `KEY_FORMAT`, whose names are all supplied, so the missing case
(returning `[]`) is never exercised. -/
def lookupEnv (env : List (String × String)) (name : List Char) : List Char :=
  match env with
  | [] => []
  | (k, v) :: rest => if k.data = name then v.data else lookupEnv rest name

mutual

/-- Embedding of Python `str.format` over a template: copies characters until
an opening brace, then substitutes the named field. -/
def substFmt (env : List (String × String)) : List Char → List Char
  | [] => []
  | c :: rest =>
    if c = '\x7b' then substFmtName env [] rest
    else c :: substFmt env rest

/-- Helper of `substFmt`: accumulates the field name up to the closing brace,
then substitutes its value and continues formatting. -/
def substFmtName (env : List (String × String)) (acc : List Char) : List Char → List Char
  | [] => []
  | c :: rest =>
    if c = '\x7d' then lookupEnv env acc ++ substFmt env rest
    else substFmtName env (acc ++ [c]) rest

end

/-- Embedding of `template.format(**env)` at the String level. -/
def pyFormat (template : String) (env : List (String × String)) : String :=
  String.mk (substFmt env template.data)

/-- Graph sink item shape: `databuilder.models.graph_node.GraphNode`.
The Python attribute dict is embedded as an ordered association list. -/
structure GraphNode where
  key : String
  label : String
  attributes : List (String × String)
deriving DecidableEq

/-- Graph sink relationship shape:
`databuilder.models.graph_relationship.GraphRelationship`. -/
structure GraphRelationship where
  start_key : String
  start_label : String
  end_key : String
  end_label : String
  type : String
  reverse_type : String
  attributes : List (String × String)
deriving DecidableEq

/-- Tabular sink record shape: `amundsen_rds.models.table.TableWatermark`. -/
structure RDSTableWatermark where
  rk : String
  partition_key : String
  partition_value : String
  create_time : String
  table_rk : String
deriving DecidableEq

/-- Catalog entity shape: `databuilder.models.atlas_entity.AtlasEntity`,
with attributes and relationships carried in the encodings produced by the
serializer helpers below. -/
structure AtlasEntity where
  typeName : String
  operation : String
  attributes : List (String × String)
  relationships : List (String × String × String)
deriving DecidableEq

/-- Modelled from the spec: `databuilder.models.atlas_relationship.AtlasRelationship`
is not under src; the catalog-relationship producer of this model never yields
one, so its shape is irrelevant and it is embedded as an empty structure. -/
structure AtlasRelationship
deriving DecidableEq

/-- Modelled from the spec: `AtlasCommonParams.qualified_name` comes from the
external `amundsen_common.utils.atlas` module, not under src; the spec names
the attribute `qualifiedName`. -/
def AtlasCommonParams.qualified_name : String := "qualifiedName"

/-- Modelled from the spec: `AtlasTableTypes.table` from `amundsen_common`,
not under src; the catalog type of the owning table, called type "table" by
the spec. -/
def AtlasTableTypes.table : String := "table"

/-- Modelled from the spec: `AtlasTableTypes.watermark` from `amundsen_common`,
not under src; the catalog type of the watermark entity, called type
"watermark" by the spec. -/
def AtlasTableTypes.watermark : String := "watermark"

/-- Modelled from the spec: `AtlasSerializedEntityOperation.CREATE` from
`databuilder.utils.atlas`, not under src; the spec says operation = CREATE. -/
def AtlasSerializedEntityOperation.CREATE : String := "CREATE"

/-- Modelled from the spec: `get_entity_attrs` from
`databuilder.serializers.atlas_serializer`, not under src.  The spec describes
it as a collaborator-supplied pure function converting an ordered list of
(fieldName, value) pairs into the catalog attribute-map encoding; the
encoding is modelled as the association list itself. -/
def get_entity_attrs (attrs_mapping : List (String × String)) : List (String × String) :=
  attrs_mapping

/-- Modelled from the spec: `add_entity_relationship` from
`databuilder.serializers.atlas_serializer`, not under src.  It appends one
(relationshipField, targetTypeName, targetQualifiedName) triple to the
relationship list. -/
def add_entity_relationship (relationship_list : List (String × String × String))
    (relation_attribute entity_type qualified_name : String) :
    List (String × String × String) :=
  relationship_list ++ [(relation_attribute, entity_type, qualified_name)]

/-- Modelled from the spec: `get_entity_relationships` from
`databuilder.serializers.atlas_serializer`, not under src.  It converts the
triple list into the catalog relationship encoding, modelled as the list
itself. -/
def get_entity_relationships (relationship_list : List (String × String × String)) :
    List (String × String × String) :=
  relationship_list

/-- A lazy, finite, non-restartable producer: an explicit cursor over the
pre-materialized ordered sequence a Python generator would yield. -/
structure Producer (α : Type) where
  items : List α
  pos : Nat
deriving DecidableEq

/-- One pull: the next item and the advanced cursor, or `none` and the
unchanged cursor once exhausted (a Python generator raising `StopIteration`,
converted to `None` by the `create_next_*` accessors). -/
def Producer.next {α : Type} (p : Producer α) : Option α × Producer α :=
  match p.items.drop p.pos with
  | [] => (none, p)
  | x :: _ => (some x, ⟨p.items, p.pos + 1⟩)

/-- The items a producer will still yield. -/
def Producer.drain {α : Type} (p : Producer α) : List α :=
  p.items.drop p.pos

/-- The immutable data fields of a constructed `Watermark` instance. -/
structure Watermark where
  create_time : String
  database : String
  schema : String
  table : String
  parts : List (String × String)
  part_type : String
  cluster : String
deriving DecidableEq

namespace Watermark

/-- Class constant `LABEL`. -/
def LABEL : String := "Watermark"

/-- Class constant `KEY_FORMAT`. -/
def KEY_FORMAT : String := "{database}://{cluster}.{schema}/{table}/{part_type}/"

/-- Class constant `WATERMARK_TABLE_RELATION_TYPE`. -/
def WATERMARK_TABLE_RELATION_TYPE : String := "BELONG_TO_TABLE"

/-- Class constant `TABLE_WATERMARK_RELATION_TYPE`. -/
def TABLE_WATERMARK_RELATION_TYPE : String := "WATERMARK"

/-- `Watermark.get_watermark_model_key`. -/
def get_watermark_model_key (w : Watermark) : String :=
  pyFormat KEY_FORMAT
    [("database", w.database), ("cluster", w.cluster), ("schema", w.schema),
     ("table", w.table), ("part_type", w.part_type)]

/-- `Watermark.get_metadata_model_key` (a Python f-string). -/
def get_metadata_model_key (w : Watermark) : String :=
  w.database ++ "://" ++ w.cluster ++ "." ++ w.schema ++ "/" ++ w.table

/-- `Watermark._create_node_iterator`: the sequence of graph nodes the
generator yields. -/
def create_node_iterator (w : Watermark) : List GraphNode :=
  w.parts.map fun part =>
    { key := w.get_watermark_model_key
      label := LABEL
      attributes :=
        [("partition_key", part.1), ("partition_value", part.2),
         ("create_time", w.create_time)] }

/-- `Watermark._create_relation_iterator`: the single relationship the
generator yields (independent of `parts`). -/
def create_relation_iterator (w : Watermark) : List GraphRelationship :=
  [{ start_key := w.get_watermark_model_key
     start_label := LABEL
     end_key := w.get_metadata_model_key
     end_label := "Table"
     type := WATERMARK_TABLE_RELATION_TYPE
     reverse_type := TABLE_WATERMARK_RELATION_TYPE
     attributes := [] }]

/-- `Watermark._create_next_record`: the sequence of tabular records the
generator yields. -/
def create_record_iterator (w : Watermark) : List RDSTableWatermark :=
  w.parts.map fun part =>
    { rk := w.get_watermark_model_key
      partition_key := part.1
      partition_value := part.2
      create_time := w.create_time
      table_rk := w.get_metadata_model_key }

/-- `Watermark._create_atlas_partition_entity`. -/
def create_atlas_partition_entity (w : Watermark) (spec : String × String) : AtlasEntity :=
  let attrs_mapping :=
    [(AtlasCommonParams.qualified_name, w.get_watermark_model_key),
     ("name", spec.2), ("displayName", spec.2), ("key", spec.1),
     ("create_time", w.create_time)]
  let entity_attrs := get_entity_attrs attrs_mapping
  let relationship_list :=
    add_entity_relationship [] "table" AtlasTableTypes.table w.get_metadata_model_key
  { typeName := AtlasTableTypes.watermark
    operation := AtlasSerializedEntityOperation.CREATE
    attributes := entity_attrs
    relationships := get_entity_relationships relationship_list }

/-- `Watermark._create_next_atlas_entity`: the sequence of catalog entities
the generator yields. -/
def create_atlas_entity_iterator (w : Watermark) : List AtlasEntity :=
  w.parts.map w.create_atlas_partition_entity

end Watermark

/-- A fully constructed instance: the data fields together with the four
generator cursors `__init__` eagerly creates and stores on `self`. -/
structure WatermarkInstance where
  data : Watermark
  node_iter : Producer GraphNode
  relation_iter : Producer GraphRelationship
  record_iter : Producer RDSTableWatermark
  atlas_entity_iterator : Producer AtlasEntity
deriving DecidableEq

/-- The instance state `__init__` leaves behind on success: each producer is a
fresh cursor over the corresponding generator sequence. -/
def WatermarkInstance.ofData (w : Watermark) : WatermarkInstance :=
  ⟨w, ⟨w.create_node_iterator, 0⟩, ⟨w.create_relation_iterator, 0⟩,
   ⟨w.create_record_iterator, 0⟩, ⟨w.create_atlas_entity_iterator, 0⟩⟩

/-- `Watermark.__init__`: validates that `part_name` holds an `=`, splits at
the first `=`, and creates the instance with its four producers; the raised
`Exception` is `Except.error`. -/
def Watermark.init (create_time database schema table_name part_name part_type cluster :
    String) : Except String WatermarkInstance :=
  if contains_char '=' part_name.data = false then
    Except.error "Only partition table has high watermark"
  else
    let idx := find_char '=' part_name.data
    let name := String.mk (part_name.data.take idx)
    let value := String.mk (part_name.data.drop (idx + 1))
    let w : Watermark :=
      ⟨create_time, database, schema, table_name, [(name, value)], part_type, cluster⟩
    Except.ok (WatermarkInstance.ofData w)

/-- `Watermark.create_next_node`: pull from the stored node producer. -/
def WatermarkInstance.create_next_node (i : WatermarkInstance) :
    Option GraphNode × WatermarkInstance :=
  match i.node_iter.next with
  | (r, it) => (r, ⟨i.data, it, i.relation_iter, i.record_iter, i.atlas_entity_iterator⟩)

/-- `Watermark.create_next_relation`: pull from the stored relation producer. -/
def WatermarkInstance.create_next_relation (i : WatermarkInstance) :
    Option GraphRelationship × WatermarkInstance :=
  match i.relation_iter.next with
  | (r, it) => (r, ⟨i.data, i.node_iter, it, i.record_iter, i.atlas_entity_iterator⟩)

/-- `Watermark.create_next_record`: pull from the stored record producer. -/
def WatermarkInstance.create_next_record (i : WatermarkInstance) :
    Option RDSTableWatermark × WatermarkInstance :=
  match i.record_iter.next with
  | (r, it) => (r, ⟨i.data, i.node_iter, i.relation_iter, it, i.atlas_entity_iterator⟩)

/-- `Watermark.create_next_atlas_entity`: pull from the stored catalog-entity
producer. -/
def WatermarkInstance.create_next_atlas_entity (i : WatermarkInstance) :
    Option AtlasEntity × WatermarkInstance :=
  match i.atlas_entity_iterator.next with
  | (r, it) => (r, ⟨i.data, i.node_iter, i.relation_iter, i.record_iter, it⟩)

/-- `Watermark.create_next_atlas_relation`: the Python body is `pass`, so the
method unconditionally returns `None` and touches no producer. -/
def WatermarkInstance.create_next_atlas_relation (i : WatermarkInstance) :
    Option AtlasRelationship × WatermarkInstance :=
  (none, i)

end AmundsenWatermark

open AmundsenWatermark

/-- A concrete instance whose four producers have all reported exhaustion
once: the constructed instance for `part_name = "ds=2024-01-01"` after one
pull on each producer. -/
def exhaustedWatermark : WatermarkInstance :=
  ((((WatermarkInstance.ofData
      ⟨"t", "hive", "sales", "orders", [("ds", "2024-01-01")], "high_watermark", "gold"⟩
    ).create_next_node.2).create_next_relation.2).create_next_record.2).create_next_atlas_entity.2

/-- Splitting at the first occurrence: taking up to the index returned by
`find_char` and dropping past it reassembles the list, and the prefix holds
no further occurrence. -/
theorem split_at_first (l : List Char) (h : contains_char '=' l = true) :
    l.take (find_char '=' l) ++ '=' :: l.drop (find_char '=' l + 1) = l
      ∧ contains_char '=' (l.take (find_char '=' l)) = false := by
  induction l with
  | nil => simp [contains_char] at h
  | cons c cs ih =>
    by_cases hc : c = '='
    · subst hc
      simp [find_char, contains_char]
    · have h' : contains_char '=' cs = true := by
        simpa [contains_char, hc] using h
      obtain ⟨e1, e2⟩ := ih h'
      refine ⟨?_, ?_⟩
      · simpa [find_char, hc] using e1
      · simp [find_char, hc, contains_char, e2]

/-- When `part_name` holds an `=`, construction succeeds and returns the
instance built from the split at the first `=`. -/
theorem init_ok (ct db sch tbl pn pt cl : String)
    (h : contains_char '=' pn.data = true) :
    Watermark.init ct db sch tbl pn pt cl =
      Except.ok (WatermarkInstance.ofData
        ⟨ct, db, sch, tbl,
         [(String.mk (pn.data.take (find_char '=' pn.data)),
           String.mk (pn.data.drop (find_char '=' pn.data + 1)))], pt, cl⟩) := by
  simp [Watermark.init, h]

/-- When `part_name` holds no `=`, construction raises. -/
theorem init_err (ct db sch tbl pn pt cl : String)
    (h : contains_char '=' pn.data = false) :
    Watermark.init ct db sch tbl pn pt cl =
      Except.error "Only partition table has high watermark" := by
  simp [Watermark.init, h]

/-- Inversion of a successful construction: `part_name` held an `=` and the
instance is exactly the one built from the first split. -/
theorem init_ok_inv (ct db sch tbl pn pt cl : String) (inst : WatermarkInstance)
    (h : Watermark.init ct db sch tbl pn pt cl = Except.ok inst) :
    contains_char '=' pn.data = true ∧
    inst = WatermarkInstance.ofData
        ⟨ct, db, sch, tbl,
         [(String.mk (pn.data.take (find_char '=' pn.data)),
           String.mk (pn.data.drop (find_char '=' pn.data + 1)))], pt, cl⟩ := by
  by_cases hc : contains_char '=' pn.data = true
  · rw [init_ok ct db sch tbl pn pt cl hc] at h
    exact ⟨hc, (Except.ok.inj h).symm⟩
  · rw [init_err ct db sch tbl pn pt cl (by simpa using hc)] at h
    exact absurd h (by simp)

/-- Evaluating `KEY_FORMAT.format` on the five identifying fields yields the
concatenation the spec writes out. -/
theorem watermark_key_eval (w : Watermark) :
    w.get_watermark_model_key =
      w.database ++ "://" ++ w.cluster ++ "." ++ w.schema ++ "/" ++ w.table ++ "/"
        ++ w.part_type ++ "/" := by
  have hL : w.get_watermark_model_key =
      String.mk (w.database.data ++ (':' :: '/' :: '/' :: (w.cluster.data ++ ('.' ::
        (w.schema.data ++ ('/' :: (w.table.data ++ ('/' ::
        (w.part_type.data ++ ['/']))))))))) := rfl
  have hR : w.database ++ "://" ++ w.cluster ++ "." ++ w.schema ++ "/" ++ w.table ++ "/"
        ++ w.part_type ++ "/" =
      String.mk (((((((((w.database.data ++ [':', '/', '/']) ++ w.cluster.data) ++ ['.'])
        ++ w.schema.data) ++ ['/']) ++ w.table.data) ++ ['/']) ++ w.part_type.data) ++ ['/']) := rfl
  rw [hL, hR]
  exact congrArg String.mk (by simp)

/-- A producer that reports exhaustion is a fixed point: its cursor is
unchanged and pulling again reports exhaustion from the same cursor. -/
theorem Producer.exhausted_fix {α : Type} {p p' : Producer α}
    (h : p.next = (none, p')) : p' = p ∧ p.next = (none, p) := by
  unfold Producer.next at h ⊢
  cases hd : p.items.drop p.pos with
  | nil =>
    rw [hd] at h
    injection h with h1 h2
    exact ⟨h2.symm, rfl⟩
  | cons x xs =>
    rw [hd] at h
    exact absurd h (by simp)

/-- A list extended by a final `=` contains `=`. -/
theorem contains_char_trailing (k : List Char) :
    contains_char '=' (k ++ ['=']) = true := by
  induction k with
  | nil => simp [contains_char]
  | cons c cs ih => by_cases hc : c = '=' <;> simp [contains_char, hc, ih]

/-- Splitting a `=`-free list extended by a final `=` at the first `=` gives
back the list and an empty remainder. -/
theorem split_trailing (k : List Char) (h : contains_char '=' k = false) :
    (k ++ ['=']).take (find_char '=' (k ++ ['='])) = k ∧
    (k ++ ['=']).drop (find_char '=' (k ++ ['=']) + 1) = [] := by
  induction k with
  | nil => simp [find_char]
  | cons c cs ih =>
    by_cases hc : c = '='
    · rw [hc] at h
      simp [contains_char] at h
    · have h' : contains_char '=' cs = false := by
        simpa [contains_char, hc] using h
      obtain ⟨e1, e2⟩ := ih h'
      constructor <;> simp [find_char, hc, e1, e2]

/-- C1: for every `part_name` containing at least one `=`, construction
succeeds and the stored one-element `parts` sequence holds exactly the pair
(substring strictly before the first `=`, substring strictly after the first
`=`), even when the value holds further `=` characters: the key part is
`=`-free and concatenating key, `=`, value reassembles `part_name`. -/
theorem partname_split_first_equals (ct db sch tbl pn pt cl : String)
    (h : contains_char '=' pn.data = true) :
    ∃ (inst : WatermarkInstance) (k v : List Char),
      Watermark.init ct db sch tbl pn pt cl = Except.ok inst ∧
      pn.data = k ++ '=' :: v ∧ contains_char '=' k = false ∧
      inst.data.parts = [(String.mk k, String.mk v)] := by
  obtain ⟨e1, e2⟩ := split_at_first pn.data h
  exact ⟨_, _, _, init_ok ct db sch tbl pn pt cl h, e1.symm, e2, rfl⟩

/-- Witness for C1 at `part_name = "a=b=c"`. -/
theorem partname_split_first_equals_witness :
    contains_char '=' ("a=b=c" : String).data = true ∧
    (∃ (inst : WatermarkInstance) (k v : List Char),
      Watermark.init "t" "hive" "sales" "orders" "a=b=c" "high_watermark" "gold"
        = Except.ok inst ∧
      ("a=b=c" : String).data = k ++ '=' :: v ∧ contains_char '=' k = false ∧
      inst.data.parts = [(String.mk k, String.mk v)]) :=
  ⟨by decide,
   partname_split_first_equals "t" "hive" "sales" "orders" "a=b=c" "high_watermark" "gold"
     (by decide)⟩

/-- C2: for every `part_name` without `=`, construction fails synchronously
with the invalid-partition-specification error, and no instance (hence no
producer state) ever exists. -/
theorem missing_equals_errors (ct db sch tbl pn pt cl : String)
    (h : contains_char '=' pn.data = false) :
    Watermark.init ct db sch tbl pn pt cl =
      Except.error "Only partition table has high watermark" ∧
    ∀ inst : WatermarkInstance,
      Watermark.init ct db sch tbl pn pt cl ≠ Except.ok inst := by
  refine ⟨init_err ct db sch tbl pn pt cl h, ?_⟩
  intro inst hcon
  rw [init_err ct db sch tbl pn pt cl h] at hcon
  exact absurd hcon (by simp)

/-- Witness for C2 at `part_name = "nopart"`. -/
theorem missing_equals_errors_witness :
    contains_char '=' ("nopart" : String).data = false ∧
    (Watermark.init "t" "hive" "sales" "orders" "nopart" "high_watermark" "gold"
        = Except.error "Only partition table has high watermark" ∧
     ∀ inst : WatermarkInstance,
       Watermark.init "t" "hive" "sales" "orders" "nopart" "high_watermark" "gold"
         ≠ Except.ok inst) :=
  ⟨by decide,
   missing_equals_errors "t" "hive" "sales" "orders" "nopart" "high_watermark" "gold"
     (by decide)⟩

/-- C3: the watermark key is exactly
`{database}://{cluster}.{schema}/{table}/{part_type}/` and the owning-table
key exactly `{database}://{cluster}.{schema}/{table}`; both are pure
functions of those identifying fields only, so two instances agreeing on them
produce identical keys whatever their `create_time` or partition content. -/
theorem keys_pure_and_formatted (w1 w2 : Watermark)
    (hdb : w1.database = w2.database) (hcl : w1.cluster = w2.cluster)
    (hsch : w1.schema = w2.schema) (htbl : w1.table = w2.table)
    (hpt : w1.part_type = w2.part_type) :
    w1.get_watermark_model_key =
      w1.database ++ "://" ++ w1.cluster ++ "." ++ w1.schema ++ "/" ++ w1.table ++ "/"
        ++ w1.part_type ++ "/" ∧
    w1.get_metadata_model_key =
      w1.database ++ "://" ++ w1.cluster ++ "." ++ w1.schema ++ "/" ++ w1.table ∧
    w1.get_watermark_model_key = w2.get_watermark_model_key ∧
    w1.get_metadata_model_key = w2.get_metadata_model_key := by
  refine ⟨watermark_key_eval w1, rfl, ?_, ?_⟩
  · rw [watermark_key_eval w1, watermark_key_eval w2, hdb, hcl, hsch, htbl, hpt]
  · simp only [Watermark.get_metadata_model_key, hdb, hcl, hsch, htbl]

/-- Witness for C3: two records sharing the identifying fields but differing
in `create_time` and partition content. -/
theorem keys_pure_and_formatted_witness :
    let w1 : Watermark :=
      ⟨"2024-01-02", "hive", "sales", "orders", [("ds", "2024-01-01")], "high_watermark", "gold"⟩
    let w2 : Watermark :=
      ⟨"1999-01-01", "hive", "sales", "orders", [("other", "x")], "high_watermark", "gold"⟩
    w1.get_watermark_model_key =
      w1.database ++ "://" ++ w1.cluster ++ "." ++ w1.schema ++ "/" ++ w1.table ++ "/"
        ++ w1.part_type ++ "/" ∧
    w1.get_metadata_model_key =
      w1.database ++ "://" ++ w1.cluster ++ "." ++ w1.schema ++ "/" ++ w1.table ∧
    w1.get_watermark_model_key = w2.get_watermark_model_key ∧
    w1.get_metadata_model_key = w2.get_metadata_model_key :=
  keys_pure_and_formatted
    ⟨"2024-01-02", "hive", "sales", "orders", [("ds", "2024-01-01")], "high_watermark", "gold"⟩
    ⟨"1999-01-01", "hive", "sales", "orders", [("other", "x")], "high_watermark", "gold"⟩
    rfl rfl rfl rfl rfl

/-- C4: identities coincide across all representations of a constructed
record: every graph node key, tabular `rk`, and catalog `qualifiedName`
attribute equals the watermark key; every graph relationship end key, tabular
`table_rk`, and declared catalog table-relationship target equals the
owning-table key. -/
theorem cross_representation_keys (ct db sch tbl pn pt cl : String)
    (inst : WatermarkInstance)
    (h : Watermark.init ct db sch tbl pn pt cl = Except.ok inst) :
    (∀ n ∈ inst.node_iter.drain, n.key = inst.data.get_watermark_model_key) ∧
    (∀ r ∈ inst.record_iter.drain,
      r.rk = inst.data.get_watermark_model_key ∧
      r.table_rk = inst.data.get_metadata_model_key) ∧
    (∀ e ∈ inst.atlas_entity_iterator.drain,
      List.lookup AtlasCommonParams.qualified_name e.attributes =
        some inst.data.get_watermark_model_key ∧
      e.relationships =
        [("table", AtlasTableTypes.table, inst.data.get_metadata_model_key)]) ∧
    (∀ rel ∈ inst.relation_iter.drain,
      rel.end_key = inst.data.get_metadata_model_key) := by
  obtain ⟨hc, rfl⟩ := init_ok_inv ct db sch tbl pn pt cl inst h
  refine ⟨?_, ?_, ?_, ?_⟩ <;>
    simp [WatermarkInstance.ofData, Producer.drain, Watermark.create_node_iterator,
      Watermark.create_record_iterator, Watermark.create_atlas_entity_iterator,
      Watermark.create_relation_iterator, Watermark.create_atlas_partition_entity,
      get_entity_attrs, get_entity_relationships, add_entity_relationship,
      List.lookup]

/-- Witness for C4 at the end-to-end example of the spec. -/
theorem cross_representation_keys_witness :
    ∃ inst : WatermarkInstance,
      Watermark.init "t" "hive" "sales" "orders" "ds=2024-01-01" "high_watermark" "gold"
        = Except.ok inst ∧
      ((∀ n ∈ inst.node_iter.drain, n.key = inst.data.get_watermark_model_key) ∧
       (∀ r ∈ inst.record_iter.drain,
         r.rk = inst.data.get_watermark_model_key ∧
         r.table_rk = inst.data.get_metadata_model_key) ∧
       (∀ e ∈ inst.atlas_entity_iterator.drain,
         List.lookup AtlasCommonParams.qualified_name e.attributes =
           some inst.data.get_watermark_model_key ∧
         e.relationships =
           [("table", AtlasTableTypes.table, inst.data.get_metadata_model_key)]) ∧
       (∀ rel ∈ inst.relation_iter.drain,
         rel.end_key = inst.data.get_metadata_model_key)) :=
  ⟨WatermarkInstance.ofData
     ⟨"t", "hive", "sales", "orders", [("ds", "2024-01-01")], "high_watermark", "gold"⟩,
   rfl,
   cross_representation_keys "t" "hive" "sales" "orders" "ds=2024-01-01" "high_watermark"
     "gold" _ rfl⟩

/-- C5: for a constructed record the graph-node producer yields exactly
`len(parts)` nodes — one, since `parts` is a one-element sequence — and the
node carries the watermark key, label `Watermark`, and exactly the attributes
`partition_key`, `partition_value`, `create_time` from the source pair. -/
theorem node_producer_items (ct db sch tbl pn pt cl : String)
    (inst : WatermarkInstance)
    (h : Watermark.init ct db sch tbl pn pt cl = Except.ok inst) :
    inst.node_iter.drain.length = inst.data.parts.length ∧
    ∃ k v : String, inst.data.parts = [(k, v)] ∧
      inst.node_iter.drain =
        [{ key := inst.data.get_watermark_model_key
           label := "Watermark"
           attributes :=
             [("partition_key", k), ("partition_value", v), ("create_time", ct)] }] := by
  obtain ⟨hc, rfl⟩ := init_ok_inv ct db sch tbl pn pt cl inst h
  refine ⟨?_, _, _, rfl, ?_⟩ <;>
    simp [WatermarkInstance.ofData, Producer.drain, Watermark.create_node_iterator,
      Watermark.LABEL]

/-- Witness for C5 at the end-to-end example of the spec. -/
theorem node_producer_items_witness :
    ∃ inst : WatermarkInstance,
      Watermark.init "t" "hive" "sales" "orders" "ds=2024-01-01" "high_watermark" "gold"
        = Except.ok inst ∧
      (inst.node_iter.drain.length = inst.data.parts.length ∧
       ∃ k v : String, inst.data.parts = [(k, v)] ∧
         inst.node_iter.drain =
           [{ key := inst.data.get_watermark_model_key
              label := "Watermark"
              attributes :=
                [("partition_key", k), ("partition_value", v), ("create_time", "t")] }]) :=
  ⟨WatermarkInstance.ofData
     ⟨"t", "hive", "sales", "orders", [("ds", "2024-01-01")], "high_watermark", "gold"⟩,
   rfl,
   node_producer_items "t" "hive" "sales" "orders" "ds=2024-01-01" "high_watermark" "gold"
     _ rfl⟩

/-- C6: the graph-relationship producer of any instance yields exactly one
relationship whatever the length of `parts`: start key the watermark key with
start label `Watermark`, end key the owning-table key with end label `Table`,
forward type `BELONG_TO_TABLE`, reverse type `WATERMARK`, empty attributes. -/
theorem relation_producer_single (w : Watermark) :
    (WatermarkInstance.ofData w).relation_iter.drain.length = 1 ∧
    (WatermarkInstance.ofData w).relation_iter.drain =
      [{ start_key := w.get_watermark_model_key
         start_label := "Watermark"
         end_key := w.get_metadata_model_key
         end_label := "Table"
         type := "BELONG_TO_TABLE"
         reverse_type := "WATERMARK"
         attributes := [] }] :=
  ⟨rfl, rfl⟩

/-- C7: for a constructed record the catalog-entity producer yields one
entity per partition pair, of the watermark type with operation CREATE, whose
attributes are built from the ordered list (qualifiedName = watermark key,
name = partition value, displayName = partition value, key = partition key,
create_time) and which declares exactly one relationship, in field `table`,
to an entity of the table type whose qualified name is the owning-table key. -/
theorem atlas_entity_producer_items (ct db sch tbl pn pt cl : String)
    (inst : WatermarkInstance)
    (h : Watermark.init ct db sch tbl pn pt cl = Except.ok inst) :
    inst.atlas_entity_iterator.drain.length = inst.data.parts.length ∧
    ∃ k v : String, inst.data.parts = [(k, v)] ∧
      inst.atlas_entity_iterator.drain =
        [{ typeName := AtlasTableTypes.watermark
           operation := AtlasSerializedEntityOperation.CREATE
           attributes := get_entity_attrs
             [(AtlasCommonParams.qualified_name, inst.data.get_watermark_model_key),
              ("name", v), ("displayName", v), ("key", k), ("create_time", ct)]
           relationships := get_entity_relationships
             (add_entity_relationship [] "table" AtlasTableTypes.table
               inst.data.get_metadata_model_key) }] := by
  obtain ⟨hc, rfl⟩ := init_ok_inv ct db sch tbl pn pt cl inst h
  refine ⟨?_, _, _, rfl, ?_⟩ <;>
    simp [WatermarkInstance.ofData, Producer.drain, Watermark.create_atlas_entity_iterator,
      Watermark.create_atlas_partition_entity, get_entity_attrs, get_entity_relationships,
      add_entity_relationship]

/-- Witness for C7 at the end-to-end example of the spec. -/
theorem atlas_entity_producer_items_witness :
    ∃ inst : WatermarkInstance,
      Watermark.init "t" "hive" "sales" "orders" "ds=2024-01-01" "high_watermark" "gold"
        = Except.ok inst ∧
      (inst.atlas_entity_iterator.drain.length = inst.data.parts.length ∧
       ∃ k v : String, inst.data.parts = [(k, v)] ∧
         inst.atlas_entity_iterator.drain =
           [{ typeName := AtlasTableTypes.watermark
              operation := AtlasSerializedEntityOperation.CREATE
              attributes := get_entity_attrs
                [(AtlasCommonParams.qualified_name, inst.data.get_watermark_model_key),
                 ("name", v), ("displayName", v), ("key", k), ("create_time", "t")]
              relationships := get_entity_relationships
                (add_entity_relationship [] "table" AtlasTableTypes.table
                  inst.data.get_metadata_model_key) }]) :=
  ⟨WatermarkInstance.ofData
     ⟨"t", "hive", "sales", "orders", [("ds", "2024-01-01")], "high_watermark", "gold"⟩,
   rfl,
   atlas_entity_producer_items "t" "hive" "sales" "orders" "ds=2024-01-01" "high_watermark"
     "gold" _ rfl⟩

/-- C8: the catalog-relationship producer yields zero items unconditionally:
every call, including the very first and any call after another call, returns
`none` without raising and leaves the instance unchanged. -/
theorem atlas_relation_producer_empty (i : WatermarkInstance) :
    i.create_next_atlas_relation = (none, i) ∧
    (i.create_next_atlas_relation.2).create_next_atlas_relation = (none, i) :=
  ⟨rfl, rfl⟩

/-- C9: idempotent exhaustion of all four producers: once a pull reports
exhaustion the state is a fixed point, so every subsequent pull again reports
exhaustion from the same state — no error, no restart, no further item. -/
theorem producers_idempotent_exhaustion (i i' : WatermarkInstance) :
    (i.create_next_node = (none, i') → i'.create_next_node = (none, i')) ∧
    (i.create_next_relation = (none, i') → i'.create_next_relation = (none, i')) ∧
    (i.create_next_record = (none, i') → i'.create_next_record = (none, i')) ∧
    (i.create_next_atlas_entity = (none, i') → i'.create_next_atlas_entity = (none, i')) := by
  refine ⟨?_, ?_, ?_, ?_⟩ <;> intro h
  · unfold WatermarkInstance.create_next_node at h ⊢
    cases hn : i.node_iter.next with
    | mk r it =>
      rw [hn] at h
      injection h with h1 h2
      subst h1
      obtain ⟨hfix, hnext⟩ := Producer.exhausted_fix hn
      subst hfix
      rw [← h2, hnext]
  · unfold WatermarkInstance.create_next_relation at h ⊢
    cases hn : i.relation_iter.next with
    | mk r it =>
      rw [hn] at h
      injection h with h1 h2
      subst h1
      obtain ⟨hfix, hnext⟩ := Producer.exhausted_fix hn
      subst hfix
      rw [← h2, hnext]
  · unfold WatermarkInstance.create_next_record at h ⊢
    cases hn : i.record_iter.next with
    | mk r it =>
      rw [hn] at h
      injection h with h1 h2
      subst h1
      obtain ⟨hfix, hnext⟩ := Producer.exhausted_fix hn
      subst hfix
      rw [← h2, hnext]
  · unfold WatermarkInstance.create_next_atlas_entity at h ⊢
    cases hn : i.atlas_entity_iterator.next with
    | mk r it =>
      rw [hn] at h
      injection h with h1 h2
      subst h1
      obtain ⟨hfix, hnext⟩ := Producer.exhausted_fix hn
      subst hfix
      rw [← h2, hnext]

/-- Witness for C9: a constructed instance drained once on each producer. -/
theorem producers_idempotent_exhaustion_witness :
    exhaustedWatermark.create_next_node = (none, exhaustedWatermark) ∧
    exhaustedWatermark.create_next_relation = (none, exhaustedWatermark) ∧
    exhaustedWatermark.create_next_record = (none, exhaustedWatermark) ∧
    exhaustedWatermark.create_next_atlas_entity = (none, exhaustedWatermark) :=
  ⟨(producers_idempotent_exhaustion exhaustedWatermark exhaustedWatermark).1 rfl,
   (producers_idempotent_exhaustion exhaustedWatermark exhaustedWatermark).2.1 rfl,
   (producers_idempotent_exhaustion exhaustedWatermark exhaustedWatermark).2.2.1 rfl,
   (producers_idempotent_exhaustion exhaustedWatermark exhaustedWatermark).2.2.2 rfl⟩

/-- C10 as amended: presence of `=` is the only check on `part_name`: a
leading `=` yields an empty partition key, and a trailing `=` yields an empty
partition value provided the prefix before it holds no earlier `=` (the split
always happens at the first `=`, so a `part_name` such as `"a=b="` that ends
with `=` but holds an earlier one stores the non-empty remainder instead —
see the counterexample below); the empty string then appears unchanged in
every emitted graph node, tabular record and catalog entity. -/
theorem boundary_empty_parts (ct db sch tbl pt cl : String) :
    (∀ (pn : String) (rest : List Char), pn.data = '=' :: rest →
      ∃ inst : WatermarkInstance,
        Watermark.init ct db sch tbl pn pt cl = Except.ok inst ∧
        inst.data.parts = [("", String.mk rest)] ∧
        (∀ n ∈ inst.node_iter.drain, ("partition_key", "") ∈ n.attributes) ∧
        (∀ r ∈ inst.record_iter.drain, r.partition_key = "") ∧
        (∀ e ∈ inst.atlas_entity_iterator.drain, ("key", "") ∈ e.attributes)) ∧
    (∀ (pn : String) (k : List Char), pn.data = k ++ ['='] →
      contains_char '=' k = false →
      ∃ inst : WatermarkInstance,
        Watermark.init ct db sch tbl pn pt cl = Except.ok inst ∧
        inst.data.parts = [(String.mk k, "")] ∧
        (∀ n ∈ inst.node_iter.drain, ("partition_value", "") ∈ n.attributes) ∧
        (∀ r ∈ inst.record_iter.drain, r.partition_value = "") ∧
        (∀ e ∈ inst.atlas_entity_iterator.drain, ("name", "") ∈ e.attributes)) := by
  constructor
  · intro pn rest hpn
    have hc : contains_char '=' pn.data = true := by
      rw [hpn]; simp [contains_char]
    refine ⟨_, init_ok ct db sch tbl pn pt cl hc, ?_, ?_, ?_, ?_⟩ <;>
      simp [hpn, find_char, WatermarkInstance.ofData, Producer.drain,
        Watermark.create_node_iterator, Watermark.create_record_iterator,
        Watermark.create_atlas_entity_iterator, Watermark.create_atlas_partition_entity,
        get_entity_attrs]
  · intro pn k hpn hk
    have hc : contains_char '=' pn.data = true := by
      rw [hpn]; exact contains_char_trailing k
    obtain ⟨e1, e2⟩ := split_trailing k hk
    refine ⟨_, init_ok ct db sch tbl pn pt cl hc, ?_, ?_, ?_, ?_⟩ <;>
      simp [hpn, e1, e2, WatermarkInstance.ofData, Producer.drain,
        Watermark.create_node_iterator, Watermark.create_record_iterator,
        Watermark.create_atlas_entity_iterator, Watermark.create_atlas_partition_entity,
        get_entity_attrs]

/-- Witness for C10 at `part_name = "=v"` and `part_name = "k="`. -/
theorem boundary_empty_parts_witness :
    (∃ inst : WatermarkInstance,
      Watermark.init "t" "hive" "sales" "orders" "=v" "high_watermark" "gold"
        = Except.ok inst ∧
      inst.data.parts = [("", String.mk ['v'])] ∧
      (∀ n ∈ inst.node_iter.drain, ("partition_key", "") ∈ n.attributes) ∧
      (∀ r ∈ inst.record_iter.drain, r.partition_key = "") ∧
      (∀ e ∈ inst.atlas_entity_iterator.drain, ("key", "") ∈ e.attributes)) ∧
    (∃ inst : WatermarkInstance,
      Watermark.init "t" "hive" "sales" "orders" "k=" "high_watermark" "gold"
        = Except.ok inst ∧
      inst.data.parts = [(String.mk ['k'], "")] ∧
      (∀ n ∈ inst.node_iter.drain, ("partition_value", "") ∈ n.attributes) ∧
      (∀ r ∈ inst.record_iter.drain, r.partition_value = "") ∧
      (∀ e ∈ inst.atlas_entity_iterator.drain, ("name", "") ∈ e.attributes)) :=
  ⟨(boundary_empty_parts "t" "hive" "sales" "orders" "high_watermark" "gold").1
     "=v" ['v'] rfl,
   (boundary_empty_parts "t" "hive" "sales" "orders" "high_watermark" "gold").2
     "k=" ['k'] rfl (by decide)⟩

/-- C10 counterexample to the claim as frozen: `"a=b="` ends with `=`, yet
construction splits at the first `=` and stores partition value `"b="`, which
is not the empty string. -/
theorem boundary_empty_parts_counterexample :
    Watermark.init "t" "hive" "sales" "orders" "a=b=" "high_watermark" "gold"
      = Except.ok (WatermarkInstance.ofData
          ⟨"t", "hive", "sales", "orders", [("a", "b=")], "high_watermark", "gold"⟩) ∧
    (∀ r ∈ (WatermarkInstance.ofData
        ⟨"t", "hive", "sales", "orders", [("a", "b=")], "high_watermark", "gold"⟩
      ).record_iter.drain, r.partition_value = "b=") ∧
    ("b=" : String) ≠ "" :=
  ⟨rfl, by decide, by decide⟩
